import Mathlib

/-!
# Verification of the normie-3d procedural voxel engine

Shallow embedding of the deterministic core of the repository:

* `NormieVoxels` — seeded hash / smooth-noise library, region grouping,
  statue / dispersed anchors and the per-frame interpolated render position
  (from `app/components/NormieVoxels.tsx`);
* `NormieTraitStudio` — trait-to-studio-parameter derivation and the pixel
  string decoder (from `app/lib/NormieTraitStudio.ts` and the reduction page);
* `NormieAmbient3d` — the generative audio engine's state machine
  (from `app/lib/NormieAmbient3d.ts`);
* `NormieAudioScene` — the audio-to-dispersal reactive coupling
  (from `app/components/NormieAudioScene.tsx`).

JavaScript numbers are modelled as exact rationals (`ℚ`), except where the
source is genuinely transcendental (`Math.cos`, `Math.cbrt`, `Math.pow`),
where reals (`ℝ`) are used.  32-bit integer operations (`|0`, `^`, `<<`,
`>>>`, `Math.imul`) are modelled on natural-number bit patterns modulo `2^32`,
exactly as ECMAScript's `ToInt32`/`ToUint32` behave on the bit level.
-/

namespace NormieVoxels

/-- The 32-bit pattern of a JS number after `ToInt32`/`ToUint32` (nonnegative
integers only; the pattern is the value mod `2^32`). -/
def u32 (n : ℕ) : ℕ := n % 4294967296

/-- The 32-bit pattern of a possibly negative integer after `ToInt32`
(bit pattern = value mod `2^32`). -/
def i32pat (z : ℤ) : ℕ := (z % 4294967296).toNat

/-- The three xorshift steps of `xorshift32` on the seed's 32-bit pattern:
`x ^= x << 13; x ^= x >>> 17; x ^= x << 5`, each intermediate stored as a
32-bit integer. -/
def xorshift32bits (seed : ℕ) : ℕ :=
  let x0 := u32 seed
  let x1 := u32 (x0 ^^^ u32 (x0 <<< 13))
  let x2 := u32 (x1 ^^^ (x1 >>> 17))
  u32 (x2 ^^^ u32 (x2 <<< 5))

/-- `xorshift32(seed)` from `NormieVoxels.tsx`: the scrambled 32-bit pattern
divided by `2^32`, giving a rational in `[0,1)`. -/
def xorshift32 (seed : ℕ) : ℚ := (xorshift32bits seed : ℚ) / 4294967296

/-- `lerp(a, b, t) = a + (b - a) * t` from `NormieVoxels.tsx`. -/
def lerp (a b t : ℚ) : ℚ := a + (b - a) * t

/-- `smoothstep(t) = t * t * (3 - 2 * t)` from `NormieVoxels.tsx`. -/
def smoothstep (t : ℚ) : ℚ := t * t * (3 - 2 * t)

/-- `clamp(n, a, b) = Math.max(a, Math.min(b, n))` from `NormieVoxels.tsx`. -/
def clamp (n a b : ℚ) : ℚ := max a (min b n)

/-- `hash2(ix, iy, seed)` from `NormieVoxels.tsx`: xor of the three scaled
32-bit patterns, fed to `xorshift32`. -/
def hash2 (ix iy seed : ℤ) : ℚ :=
  xorshift32 (i32pat (ix * 374761393) ^^^ i32pat (iy * 668265263) ^^^
    i32pat (seed * 1442695041))

/-- `noise2(x, y, seed)` from `NormieVoxels.tsx`: smoothstep-interpolated
value noise over the four lattice corners surrounding `(x, y)`. -/
def noise2 (x y : ℚ) (seed : ℤ) : ℚ :=
  let x0 : ℤ := ⌊x⌋
  let y0 : ℤ := ⌊y⌋
  let x1 : ℤ := x0 + 1
  let y1 : ℤ := y0 + 1
  let sx := smoothstep (x - (x0 : ℚ))
  let sy := smoothstep (y - (y0 : ℚ))
  let n00 := hash2 x0 y0 seed
  let n10 := hash2 x1 y0 seed
  let n01 := hash2 x0 y1 seed
  let n11 := hash2 x1 y1 seed
  let ix0 := lerp n00 n10 sx
  let ix1 := lerp n01 n11 sx
  lerp ix0 ix1 sy

/-- The grouping frequency from the `cubes` memo:
`freq = 1 / Math.max(1.5, noiseScale)`. -/
def freqOf (noiseScale : ℚ) : ℚ := 1 / max (3/2) noiseScale

/-- The group id assigned to the active cell at grid coordinates `(px, py)`
in the `cubes` memo of `NormieVoxels.tsx`:
`n = noise2(px*freq, py*freq, seed + 1337); group = Math.min(7, Math.floor(n*8))`. -/
def groupOf (px py : ℕ) (seed : ℤ) (noiseScale : ℚ) : ℤ :=
  min 7 ⌊noise2 ((px : ℚ) * freqOf noiseScale) ((py : ℚ) * freqOf noiseScale)
    (seed + 1337) * 8⌋

/-- The grouping rule as the specification words it: `floor(8 · n)` clamped
to `[0, 7]` (a lower clamp in addition to the upper one). -/
def groupSpecOf (px py : ℕ) (seed : ℤ) (noiseScale : ℚ) : ℤ :=
  max 0 (min 7 ⌊8 * noise2 ((px : ℚ) * freqOf noiseScale)
    ((py : ℚ) * freqOf noiseScale) (seed + 1337)⌋)

lemma u32_lt (n : ℕ) : u32 n < 4294967296 := Nat.mod_lt _ (by norm_num)

lemma xorshift32bits_lt (seed : ℕ) : xorshift32bits seed < 4294967296 :=
  u32_lt _

lemma xorshift32_nonneg (seed : ℕ) : 0 ≤ xorshift32 seed := by
  unfold xorshift32
  positivity

lemma xorshift32_lt_one (seed : ℕ) : xorshift32 seed < 1 := by
  unfold xorshift32
  rw [div_lt_one (by norm_num)]
  exact_mod_cast xorshift32bits_lt seed

lemma hash2_nonneg (ix iy seed : ℤ) : 0 ≤ hash2 ix iy seed :=
  xorshift32_nonneg _

lemma hash2_lt_one (ix iy seed : ℤ) : hash2 ix iy seed < 1 :=
  xorshift32_lt_one _

/-- A linear interpolation of two values of `[0,1)` at a parameter of `[0,1]`
stays in `[0,1)`. -/
lemma lerp_mem_Ico {a b t : ℚ} (ha : 0 ≤ a) (ha' : a < 1) (hb : 0 ≤ b)
    (hb' : b < 1) (ht : 0 ≤ t) (ht' : t ≤ 1) :
    0 ≤ lerp a b t ∧ lerp a b t < 1 := by
  unfold lerp
  constructor
  · nlinarith
  · rcases lt_or_eq_of_le ht' with h | h
    · nlinarith [mul_pos (sub_pos.2 h) (sub_pos.2 ha'),
        mul_nonneg ht (sub_nonneg.2 hb'.le)]
    · rw [h]; ring_nf; linarith

/-- `smoothstep` maps `[0,1]` into `[0,1]`. -/
lemma smoothstep_mem_Icc {t : ℚ} (ht : 0 ≤ t) (ht' : t ≤ 1) :
    0 ≤ smoothstep t ∧ smoothstep t ≤ 1 := by
  unfold smoothstep
  constructor
  · nlinarith
  · nlinarith [mul_nonneg (mul_nonneg (sub_nonneg.2 ht') (sub_nonneg.2 ht'))
      (by linarith : (0:ℚ) ≤ 1 + 2 * t)]

lemma fract_nonneg' (x : ℚ) : 0 ≤ x - (⌊x⌋ : ℚ) :=
  sub_nonneg.2 (Int.floor_le x)

lemma fract_lt_one' (x : ℚ) : x - (⌊x⌋ : ℚ) < 1 := by
  have := Int.lt_floor_add_one x
  linarith

/-- `noise2` always lands in `[0,1)`. -/
lemma noise2_mem_Ico (x y : ℚ) (seed : ℤ) :
    0 ≤ noise2 x y seed ∧ noise2 x y seed < 1 := by
  unfold noise2
  have hsx := smoothstep_mem_Icc (fract_nonneg' x) (fract_lt_one' x).le
  have hsy := smoothstep_mem_Icc (fract_nonneg' y) (fract_lt_one' y).le
  have h0 := lerp_mem_Ico (hash2_nonneg ⌊x⌋ ⌊y⌋ seed) (hash2_lt_one _ _ _)
    (hash2_nonneg (⌊x⌋ + 1) ⌊y⌋ seed) (hash2_lt_one _ _ _) hsx.1 hsx.2
  have h1 := lerp_mem_Ico (hash2_nonneg ⌊x⌋ (⌊y⌋ + 1) seed) (hash2_lt_one _ _ _)
    (hash2_nonneg (⌊x⌋ + 1) (⌊y⌋ + 1) seed) (hash2_lt_one _ _ _) hsx.1 hsx.2
  exact lerp_mem_Ico h0.1 h0.2 h1.1 h1.2 hsy.1 hsy.2

/-- Claim C3.  For every cell position `(px, py)`, seed and noise scale, the
group id computed by the `cubes` memo equals `floor(8 · smoothNoise(px·freq,
py·freq, seed + 1337))` clamped to `[0,7]` with `freq = 1/max(1.5,
noiseScale)` (the code's upper-only clamp agrees with the spec's two-sided
clamp because the noise value is nonnegative); the group id always lies in
`[0,7]`; and grouping is a deterministic function of `(px, py, seed,
noiseScale)` — two evaluations at identical inputs agree. -/
theorem groupOf_eq_spec_and_bounds (px py : ℕ) (seed : ℤ) (noiseScale : ℚ) :
    groupOf px py seed noiseScale = groupSpecOf px py seed noiseScale ∧
    0 ≤ groupOf px py seed noiseScale ∧ groupOf px py seed noiseScale ≤ 7 ∧
    groupOf px py seed noiseScale = groupOf px py seed noiseScale := by
  unfold groupOf groupSpecOf
  set n := noise2 ((px : ℚ) * freqOf noiseScale) ((py : ℚ) * freqOf noiseScale)
    (seed + 1337) with hn
  obtain ⟨hn0, hn1⟩ := noise2_mem_Ico ((px : ℚ) * freqOf noiseScale)
    ((py : ℚ) * freqOf noiseScale) (seed + 1337)
  rw [← hn] at hn0 hn1
  have h8 : (0 : ℚ) ≤ n * 8 := by nlinarith
  have hfl0 : 0 ≤ ⌊n * 8⌋ := Int.floor_nonneg.2 h8
  have hfl7 : ⌊n * 8⌋ < 8 := Int.floor_lt.2 (by push_cast; nlinarith)
  refine ⟨?_, ?_, ?_, rfl⟩
  · rw [mul_comm (8 : ℚ) n]
    omega
  · omega
  · omega

/-- One entry of the `cubes` memo of `NormieVoxels.tsx`: statue anchor
`(bx, by, bz)`, dispersed anchor `(tx, ty, tz)`, the per-cell jitter and the
group id.  (`by` is a Lean keyword, so that field is spelled `by'`.)  The
type is parametric so the per-frame interpolation can be stated over exact
rationals while the anchor construction lives over the reals. -/
structure Cube (α : Type) where
  bx : α
  by' : α
  bz : α
  tx : α
  ty : α
  tz : α
  jitter : α
  group : ℕ
deriving DecidableEq

/-- `Math.round`: rounds half toward positive infinity. -/
def jsRound (q : ℚ) : ℤ := ⌊q + 1/2⌋

/-- The per-frame x coordinate from the render loop of `NormieVoxels.tsx`:
`x = lerp(c.bx, c.tx, starfield)`. -/
def renderX (c : Cube ℚ) (starfield : ℚ) : ℚ := lerp c.bx c.tx starfield

/-- The per-frame y coordinate: `y = lerp(c.by, c.ty, starfield)`. -/
def renderY (c : Cube ℚ) (starfield : ℚ) : ℚ := lerp c.by' c.ty starfield

/-- The per-frame z coordinate from the render loop of `NormieVoxels.tsx`,
with `zOff` the group's depth offset (`z[c.group] ?? 0`) and `ex` the group's
raw extrusion entry (`exArr[c.group] ?? 1`):

    blocks      = clamp(Math.round(ex), 1, 16)
    blocksBlend = lerp(blocks, 1, starfield)
    thick       = pixelSize * blocksBlend
    baseZ       = c.bz + c.jitter + zOff * (1 - starfield)
    zPos        = lerp(baseZ + (thick - pixelSize) * 0.5, c.tz, starfield)
-/
def renderZ (c : Cube ℚ) (zOff ex pixelSize starfield : ℚ) : ℚ :=
  lerp (c.bz + c.jitter + zOff * (1 - starfield) +
      (pixelSize * lerp (clamp ((jsRound ex : ℚ)) 1 16) 1 starfield - pixelSize)
        * (1/2))
    c.tz starfield

/-- `x` lies strictly between `a` and `b` (in either order). -/
def strictlyBetween (a x b : ℚ) : Prop := (a < x ∧ x < b) ∨ (b < x ∧ x < a)

instance (a x b : ℚ) : Decidable (strictlyBetween a x b) := by
  unfold strictlyBetween; infer_instance

lemma lerp_zero (a b : ℚ) : lerp a b 0 = a := by simp [lerp]

lemma lerp_one (a b : ℚ) : lerp a b 1 = b := by simp [lerp]

/-- A non-degenerate linear interpolation is strictly monotone between any
two parameter values. -/
lemma lerp_strictlyBetween {a b : ℚ} (hab : a ≠ b) {t1 t t2 : ℚ}
    (h1 : t1 < t) (h2 : t < t2) :
    strictlyBetween (lerp a b t1) (lerp a b t) (lerp a b t2) := by
  unfold strictlyBetween lerp
  rcases lt_or_gt_of_ne hab with h | h
  · left
    constructor
    · nlinarith
    · nlinarith
  · right
    constructor
    · nlinarith
    · nlinarith

/-- With a zero depth offset and a neutral extrusion entry the z coordinate
degenerates to plain linear interpolation between `bz + jitter` and `tz`. -/
lemma renderZ_neutral (c : Cube ℚ) (ex pixelSize t : ℚ) (hex : jsRound ex = 1) :
    renderZ c 0 ex pixelSize t = lerp (c.bz + c.jitter) c.tz t := by
  unfold renderZ clamp
  rw [hex]
  norm_num [lerp]

/-- Claim C1 (amended).  For every cell and every group depth offset,
extrusion entry and pixel size: at `t = 0` the render position is the statue
anchor in x and y, and in z the statue anchor plus jitter plus the depth
offset plus half the extra extrusion thickness `(blocks - 1)·pixelSize/2`
(which vanishes exactly when the extrusion entry rounds to 1); at `t = 1` the
render position equals the dispersed anchor exactly in all three
coordinates. -/
theorem render_endpoints (c : Cube ℚ) (zOff ex pixelSize : ℚ) :
    renderX c 0 = c.bx ∧
    renderY c 0 = c.by' ∧
    renderZ c zOff ex pixelSize 0 =
      c.bz + c.jitter + zOff +
        (clamp ((jsRound ex : ℚ)) 1 16 - 1) * pixelSize * (1/2) ∧
    renderZ c zOff 1 pixelSize 0 = c.bz + c.jitter + zOff ∧
    renderX c 1 = c.tx ∧
    renderY c 1 = c.ty ∧
    renderZ c zOff ex pixelSize 1 = c.tz := by
  refine ⟨lerp_zero _ _, lerp_zero _ _, ?_, ?_, lerp_one _ _, lerp_one _ _, ?_⟩
  · unfold renderZ lerp
    ring
  · have h1 : jsRound 1 = 1 := by norm_num [jsRound]
    unfold renderZ clamp
    rw [h1]
    norm_num [lerp]
  · unfold renderZ lerp
    ring

/-- Claim C1 (counterexample to the claim as stated).  For the cell with all
anchors and jitter zero, depth offset 0, extrusion entry 2 and pixel size 1,
the render z at `t = 0` is `1/2`, not the statue `bz + jitter + zOff = 0`:
the extrusion thickness shifts z even at `t = 0`. -/
theorem render_t0_extrusion_shift :
    renderZ ⟨0, 0, 0, 0, 0, 0, 0, 0⟩ 0 2 1 0 = 1/2 ∧
    (⟨0, 0, 0, 0, 0, 0, 0, 0⟩ : Cube ℚ).bz +
      (⟨0, 0, 0, 0, 0, 0, 0, 0⟩ : Cube ℚ).jitter + 0 ≠
      renderZ ⟨0, 0, 0, 0, 0, 0, 0, 0⟩ 0 2 1 0 := by
  constructor
  · norm_num [renderZ, lerp, clamp, jsRound]
  · norm_num [renderZ, lerp, clamp, jsRound]

/-- Claim C2 (amended).  For parameters `t1 < t < t2`, the x and y render
coordinates lie strictly between their `t1` and `t2` values whenever the
statue and dispersed anchors differ on that axis (they are non-degenerate
linear interpolations); the z coordinate does the same provided the group
depth offset is 0 and the extrusion entry rounds to 1 (otherwise z is
quadratic in `t` and betweenness can fail, see the counterexample). -/
theorem render_strictlyBetween_axes (c : Cube ℚ) (zOff ex pixelSize : ℚ)
    (t1 t t2 : ℚ) (h1 : t1 < t) (h2 : t < t2) :
    (c.bx ≠ c.tx →
      strictlyBetween (renderX c t1) (renderX c t) (renderX c t2)) ∧
    (c.by' ≠ c.ty →
      strictlyBetween (renderY c t1) (renderY c t) (renderY c t2)) ∧
    (zOff = 0 → jsRound ex = 1 → c.bz + c.jitter ≠ c.tz →
      strictlyBetween (renderZ c zOff ex pixelSize t1)
        (renderZ c zOff ex pixelSize t) (renderZ c zOff ex pixelSize t2)) := by
  refine ⟨fun hne => lerp_strictlyBetween hne h1 h2,
    fun hne => lerp_strictlyBetween hne h1 h2, fun hz hex hne => ?_⟩
  subst hz
  rw [renderZ_neutral c ex pixelSize t1 hex, renderZ_neutral c ex pixelSize t hex,
    renderZ_neutral c ex pixelSize t2 hex]
  exact lerp_strictlyBetween hne h1 h2

/-- Witness for C2 (amended): the cell with statue anchor `(0,0,0)`, zero
jitter, dispersed anchor `(1,1,1)`, depth offset 0, extrusion entry 1 and
`t1 = 0 < t = 1/2 < t2 = 1` is strictly between on all three axes. -/
theorem render_strictlyBetween_axes_witness :
    strictlyBetween (renderX ⟨0, 0, 0, 1, 1, 1, 0, 0⟩ 0)
      (renderX ⟨0, 0, 0, 1, 1, 1, 0, 0⟩ (1/2))
      (renderX ⟨0, 0, 0, 1, 1, 1, 0, 0⟩ 1) ∧
    strictlyBetween (renderY ⟨0, 0, 0, 1, 1, 1, 0, 0⟩ 0)
      (renderY ⟨0, 0, 0, 1, 1, 1, 0, 0⟩ (1/2))
      (renderY ⟨0, 0, 0, 1, 1, 1, 0, 0⟩ 1) ∧
    strictlyBetween (renderZ ⟨0, 0, 0, 1, 1, 1, 0, 0⟩ 0 1 1 0)
      (renderZ ⟨0, 0, 0, 1, 1, 1, 0, 0⟩ 0 1 1 (1/2))
      (renderZ ⟨0, 0, 0, 1, 1, 1, 0, 0⟩ 0 1 1 1) := by
  obtain ⟨hx, hy, hz⟩ := render_strictlyBetween_axes
    (⟨0, 0, 0, 1, 1, 1, 0, 0⟩ : Cube ℚ) 0 1 1 0 (1/2) 1
    (by norm_num) (by norm_num)
  exact ⟨hx (by norm_num), hy (by norm_num),
    hz rfl (by norm_num [jsRound]) (by norm_num)⟩

/-- Claim C2 (counterexample to the claim as stated).  With a group depth
offset of 1 the z coordinate is quadratic in `t`: for the cell with statue
anchor `(0,0,0)` and dispersed anchor `(1,1,1)`, z equals 1 at both `t = 0`
and `t = 1` yet `3/4` at `t = 1/2`, so the `t = 1/2` position is not strictly
between the endpoint positions on the z axis. -/
theorem render_z_not_between :
    (0 : ℚ) < 1/2 ∧ (1/2 : ℚ) < 1 ∧
    renderZ ⟨0, 0, 0, 1, 1, 1, 0, 0⟩ 1 1 1 0 = 1 ∧
    renderZ ⟨0, 0, 0, 1, 1, 1, 0, 0⟩ 1 1 1 (1/2) = 3/4 ∧
    renderZ ⟨0, 0, 0, 1, 1, 1, 0, 0⟩ 1 1 1 1 = 1 ∧
    ¬ strictlyBetween (renderZ ⟨0, 0, 0, 1, 1, 1, 0, 0⟩ 1 1 1 0)
        (renderZ ⟨0, 0, 0, 1, 1, 1, 0, 0⟩ 1 1 1 (1/2))
        (renderZ ⟨0, 0, 0, 1, 1, 1, 0, 0⟩ 1 1 1 1) := by
  refine ⟨by norm_num, by norm_num, ?_, ?_, ?_, ?_⟩
  · norm_num [renderZ, lerp, clamp, jsRound]
  · norm_num [renderZ, lerp, clamp, jsRound]
  · norm_num [renderZ, lerp, clamp, jsRound]
  · norm_num [renderZ, lerp, clamp, jsRound, strictlyBetween]

/-- The first hashed draw of `randomUnitVec(i, seed)`:
`u = xorshift32((s0 ^ (seed * 1013)) | 0)` with `s0 = (i + 1) * 2654435761`. -/
def uDraw (i seed : ℕ) : ℚ :=
  xorshift32 (u32 ((i + 1) * 2654435761) ^^^ u32 (seed * 1013))

/-- The second hashed draw of `randomUnitVec(i, seed)`:
`v = xorshift32((s0 ^ (seed * 2027) ^ 0x9e3779b9) | 0)`. -/
def vDraw (i seed : ℕ) : ℚ :=
  xorshift32 (u32 ((i + 1) * 2654435761) ^^^ u32 (seed * 2027) ^^^ 0x9e3779b9)

/-- `theta = 2π·u` of `randomUnitVec`. -/
noncomputable def thetaOf (i seed : ℕ) : ℝ := 2 * Real.pi * ((uDraw i seed : ℚ) : ℝ)

/-- `z = 2v - 1` of `randomUnitVec`. -/
noncomputable def zOf (i seed : ℕ) : ℝ := 2 * ((vDraw i seed : ℚ) : ℝ) - 1

/-- `r = sqrt(max(0, 1 - z²))` of `randomUnitVec`. -/
noncomputable def rOf (i seed : ℕ) : ℝ :=
  Real.sqrt (max 0 (1 - zOf i seed * zOf i seed))

/-- `randomUnitVec(i, seed)` from `NormieVoxels.tsx`:
`(r·cos θ, r·sin θ, z)`. -/
noncomputable def randomUnitVec (i seed : ℕ) : ℝ × ℝ × ℝ :=
  (rOf i seed * Real.cos (thetaOf i seed),
    rOf i seed * Real.sin (thetaOf i seed), zOf i seed)

/-- The per-cell uniform draw of the dispersed radius in the `cubes` memo:
`u = xorshift32(((i + 1) * 1618033) ^ (seed * 3343))`. -/
def uRadius (i seed : ℕ) : ℚ :=
  xorshift32 (u32 ((i + 1) * 1618033) ^^^ u32 (seed * 3343))

/-- The dispersed radius of the `cubes` memo, with `R = 12` and
`shellBias = 0.35`:
`radius = (cbrt(u)·(1 - shellBias) + u^0.12·shellBias) · R`. -/
noncomputable def dispersedRadius (i seed : ℕ) : ℝ :=
  (((uRadius i seed : ℚ) : ℝ) ^ ((1 : ℝ)/3) * (1 - 0.35) +
    ((uRadius i seed : ℚ) : ℝ) ^ (0.12 : ℝ) * 0.35) * 12

/-- The dispersed anchor `(tx, ty, tz) = dir · radius` of the `cubes` memo. -/
noncomputable def dispersedAnchor (i seed : ℕ) : ℝ × ℝ × ℝ :=
  ((randomUnitVec i seed).1 * dispersedRadius i seed,
    (randomUnitVec i seed).2.1 * dispersedRadius i seed,
    (randomUnitVec i seed).2.2 * dispersedRadius i seed)

/-- The Euclidean norm of a triple. -/
noncomputable def norm3 (p : ℝ × ℝ × ℝ) : ℝ :=
  Real.sqrt (p.1 ^ 2 + p.2.1 ^ 2 + p.2.2 ^ 2)

lemma xorshift32_real_mem (n : ℕ) :
    0 ≤ ((xorshift32 n : ℚ) : ℝ) ∧ ((xorshift32 n : ℚ) : ℝ) < 1 := by
  constructor
  · exact_mod_cast xorshift32_nonneg n
  · exact_mod_cast xorshift32_lt_one n

lemma randomUnitVec_sq_sum (i seed : ℕ) :
    (randomUnitVec i seed).1 ^ 2 + (randomUnitVec i seed).2.1 ^ 2 +
      (randomUnitVec i seed).2.2 ^ 2 = 1 := by
  obtain ⟨hv0, hv1⟩ := xorshift32_real_mem
    (u32 ((i + 1) * 2654435761) ^^^ u32 (seed * 2027) ^^^ 0x9e3779b9)
  have hz : -1 ≤ zOf i seed ∧ zOf i seed ≤ 1 := by
    unfold zOf vDraw
    constructor <;> nlinarith
  have hz2 : 0 ≤ 1 - zOf i seed * zOf i seed := by nlinarith [hz.1, hz.2]
  have hmax : max 0 (1 - zOf i seed * zOf i seed)
      = 1 - zOf i seed * zOf i seed := max_eq_right hz2
  have hr2 : rOf i seed ^ 2 = 1 - zOf i seed * zOf i seed := by
    unfold rOf
    rw [hmax, Real.sq_sqrt hz2]
  have htrig : Real.cos (thetaOf i seed) ^ 2 + Real.sin (thetaOf i seed) ^ 2
      = 1 := Real.cos_sq_add_sin_sq _
  unfold randomUnitVec
  dsimp only
  calc (rOf i seed * Real.cos (thetaOf i seed)) ^ 2 +
        (rOf i seed * Real.sin (thetaOf i seed)) ^ 2 + zOf i seed ^ 2
      = rOf i seed ^ 2 *
          (Real.cos (thetaOf i seed) ^ 2 + Real.sin (thetaOf i seed) ^ 2) +
          zOf i seed ^ 2 := by ring
    _ = (1 - zOf i seed * zOf i seed) * 1 + zOf i seed ^ 2 := by
        rw [hr2, htrig]
    _ = 1 := by ring

lemma dispersedRadius_nonneg_le (i seed : ℕ) :
    0 ≤ dispersedRadius i seed ∧ dispersedRadius i seed ≤ 12 := by
  obtain ⟨hu0, hu1⟩ := xorshift32_real_mem
    (u32 ((i + 1) * 1618033) ^^^ u32 (seed * 3343))
  have hu0' : (0 : ℝ) ≤ ((uRadius i seed : ℚ) : ℝ) := hu0
  have hu1' : ((uRadius i seed : ℚ) : ℝ) ≤ 1 := le_of_lt hu1
  have hcb0 : (0 : ℝ) ≤ ((uRadius i seed : ℚ) : ℝ) ^ ((1 : ℝ)/3) :=
    Real.rpow_nonneg hu0' _
  have hcb1 : ((uRadius i seed : ℚ) : ℝ) ^ ((1 : ℝ)/3) ≤ 1 :=
    Real.rpow_le_one hu0' hu1' (by norm_num)
  have hsh0 : (0 : ℝ) ≤ ((uRadius i seed : ℚ) : ℝ) ^ (0.12 : ℝ) :=
    Real.rpow_nonneg hu0' _
  have hsh1 : ((uRadius i seed : ℚ) : ℝ) ^ (0.12 : ℝ) ≤ 1 :=
    Real.rpow_le_one hu0' hu1' (by norm_num)
  unfold dispersedRadius
  constructor
  · nlinarith
  · nlinarith

/-- Claim C6.  For every cell index and seed: the hashed direction vector has
Euclidean norm exactly 1; the dispersed anchor's Euclidean norm equals the
radius `R·((1 - bias)·cbrt(u) + bias·u^0.12)` with `R = 12`, `bias = 0.35`
and `u` the per-cell uniform draw; that radius is nonnegative and at most 12,
so every dispersed anchor lies within the ball of radius 12. -/
theorem dispersedAnchor_norm_eq_radius (i seed : ℕ) :
    norm3 (randomUnitVec i seed) = 1 ∧
    norm3 (dispersedAnchor i seed) = dispersedRadius i seed ∧
    0 ≤ dispersedRadius i seed ∧ dispersedRadius i seed ≤ 12 := by
  obtain ⟨hr0, hr12⟩ := dispersedRadius_nonneg_le i seed
  have hsq := randomUnitVec_sq_sum i seed
  refine ⟨?_, ?_, hr0, hr12⟩
  · unfold norm3
    rw [hsq, Real.sqrt_one]
  · unfold norm3 dispersedAnchor
    have : ((randomUnitVec i seed).1 * dispersedRadius i seed) ^ 2 +
        ((randomUnitVec i seed).2.1 * dispersedRadius i seed) ^ 2 +
        ((randomUnitVec i seed).2.2 * dispersedRadius i seed) ^ 2
        = dispersedRadius i seed ^ 2 := by nlinarith [hsq]
    rw [this, Real.sqrt_sq hr0]

end NormieVoxels

namespace NormieTraitStudio

/-- One trait attribute `{ trait_type, value }`; values are modelled as the
strings the code coerces them to with `String(...)`. -/
structure Trait where
  trait_type : String
  value : String
deriving DecidableEq

/-- The traits payload `{ attributes?: Trait[] }` with its optional field. -/
structure TraitsResponse where
  attributes : Option (List Trait)
deriving DecidableEq

/-- `clamp(n, a, b)` from `NormieTraitStudio.ts`. -/
def clamp (n a b : ℚ) : ℚ := max a (min b n)

/-- One step of `hashStr`: `h ^= s.charCodeAt(i); h = Math.imul(h, 16777619)`
on the 32-bit pattern. -/
def hashStrStep (h : ℕ) (c : Char) : ℕ :=
  NormieVoxels.u32 ((h ^^^ c.toNat) * 16777619)

/-- The 32-bit FNV-style accumulator of `hashStr`, seeded with 2166136261. -/
def hashStrBits (s : String) : ℕ := s.data.foldl hashStrStep 2166136261

/-- `hashStr(s)` from `NormieTraitStudio.ts`: `(h >>> 0) / 4294967296`. -/
def hashStr (s : String) : ℚ := (hashStrBits s : ℚ) / 4294967296

/-- `getTrait(attrs, name)`: the value of the first attribute whose
`trait_type` matches. -/
def getTrait (attrs : List Trait) (name : String) : Option String :=
  (attrs.find? (fun t => t.trait_type == name)).map (fun t => t.value)

/-- One row of the `TYPE_PRESET` table. -/
structure TypePreset where
  light : ℕ
  mat : ℕ
  starBase : ℚ
  noiseBase : ℚ
  rotSpeed : ℚ
deriving DecidableEq

/-- The `TYPE_PRESET` lookup table. -/
def TYPE_PRESET : String → Option TypePreset
  | "Human" => some ⟨0, 0, 0.18, 6, 0.8⟩
  | "Cat" => some ⟨1, 4, 0.28, 7, 1.05⟩
  | "Alien" => some ⟨4, 3, 0.4, 9, 0.55⟩
  | "Agent" => some ⟨2, 2, 0.22, 6, 0.7⟩
  | _ => none

/-- One row of the `EXPRESSION_MOD` table. -/
structure ExpressionMod where
  star : ℚ
  noise : ℚ
  lightBias : ℚ
  smoothBias : ℚ
  strengthBias : ℚ
deriving DecidableEq

/-- The `EXPRESSION_MOD` lookup table. -/
def EXPRESSION_MOD : String → Option ExpressionMod
  | "Neutral" => some ⟨0, 0, 0, 0, 0⟩
  | "Slight Smile" => some ⟨0.03, 0, 0, -0.02, 0.02⟩
  | "Serious" => some ⟨-0.03, -0.5, 0, 0.03, -0.02⟩
  | "Happy" => some ⟨0.05, 0.5, 0, -0.03, 0.05⟩
  | "Surprised" => some ⟨0.04, 0.7, 1, -0.04, 0.06⟩
  | "Angry" => some ⟨-0.02, 0.9, -1, -0.02, 0.08⟩
  | "Sad" => some ⟨0.08, -0.3, 0, 0.05, -0.03⟩
  | _ => none

/-- The `EYES_SPACE` lookup table. -/
def EYES_SPACE : String → Option ℚ
  | "Narrow Eyes" => some 0.15
  | "Small Shades" => some 0.2
  | "Eye Patch" => some 0.22
  | "Classic Shades" => some 0.3
  | "Square Glasses" => some 0.32
  | "Round Glasses" => some 0.35
  | "Wink" => some 0.38
  | "Wide Eyes" => some 0.45
  | "Monocle" => some 0.48
  | "Crying" => some 0.52
  | "Big Shades" => some 0.55
  | "Closed Eyes" => some 0.65
  | "Glowing Eyes" => some 0.72
  | "Laser Eyes" => some 0.62
  | _ => none

/-- The `AGE_ENERGY` lookup table. -/
def AGE_ENERGY : String → Option ℚ
  | "Young" => some 0.85
  | "Middle-Aged" => some 0.55
  | "Old" => some 0.25
  | _ => none

/-- The derived visual studio parameter record. -/
structure StudioParams where
  lightPreset : ℕ
  materialMode : ℕ
  noiseScale : ℚ
  baseStarfield : ℚ
  autoRotate : Bool
  autoRotateSpeed : ℚ
  audioStarStrengthBase : ℚ
  audioSmoothingBase : ℚ
deriving DecidableEq

/-- JS `s || d`: the empty string is falsy and replaced by the default. -/
def orDefault (s d : String) : String := if s == "" then d else s

/-- `deriveStudioParams(traits)` from `NormieTraitStudio.ts`, translated
clause by clause (the two sequential `if` nudges on `lightPreset` and
`materialMode` are kept sequential). -/
def deriveStudioParams (traits : Option TraitsResponse) : StudioParams :=
  let attrs := (traits.map (fun t => t.attributes.getD [])).getD []
  let type := (getTrait attrs ("Type")).getD ("Human")
  let expr := (getTrait attrs ("Expression")).getD ("Neutral")
  let eyes := (getTrait attrs ("Eyes")).getD ("")
  let age := (getTrait attrs ("Age")).getD ("Middle-Aged")
  let hair := (getTrait attrs ("Hair Style")).getD ("")
  let face := (getTrait attrs ("Facial Feature")).getD ("")
  let gender := (getTrait attrs ("Gender")).getD ("Non-Binary")
  let base := (TYPE_PRESET type).getD ⟨0, 0, 0.18, 6, 0.8⟩
  let em := (EXPRESSION_MOD expr).getD ⟨0, 0, 0, 0, 0⟩
  let space := clamp ((EYES_SPACE eyes).getD 0.33 +
    (if expr == "Sad" then 0.06 else 0)) 0 1
  let energy := clamp ((AGE_ENERGY age).getD 0.55) 0 1
  let hairH := hashStr (orDefault hair ("hair"))
  let faceH := hashStr (orDefault face ("face"))
  let genderH := hashStr (orDefault gender ("gender"))
  let complexity := clamp (0.35 + 0.35 * hairH + 0.2 * faceH + 0.1 * genderH) 0 1
  let baseStarfield := clamp (base.starBase + 0.35 * space + 0.1 * complexity
    + em.star) 0 1
  let noiseScale := clamp ((NormieVoxels.jsRound (base.noiseBase + em.noise
    + 5 * complexity - 2 * (1 - energy)) : ℚ)) 2 16
  let light1 := if em.lightBias > 0 then (base.light + 1) % 5 else base.light
  let lightPreset := if em.lightBias < 0 then (light1 + 4) % 5 else light1
  let mat1 := if faceH > 0.7 then (base.mat + 1) % 5 else base.mat
  let materialMode := if faceH < 0.25 then (mat1 + 4) % 5 else mat1
  let autoRotateSpeed := clamp (base.rotSpeed + 1 * (energy - 0.5)) 0.15 2.2
  let audioStarStrengthBase := clamp (0.22 + 0.22 * energy + em.strengthBias)
    0.12 0.6
  let audioSmoothingBase := clamp (0.94 - 0.1 * energy + em.smoothBias)
    0.8 0.97
  { lightPreset := lightPreset
    materialMode := materialMode
    noiseScale := noiseScale
    baseStarfield := baseStarfield
    autoRotate := true
    autoRotateSpeed := autoRotateSpeed
    audioStarStrengthBase := audioStarStrengthBase
    audioSmoothingBase := audioSmoothingBase }

/-- The detected encoding of a pixel string. -/
inductive PixelFormat
  | binary
  | hex
deriving DecidableEq

/-- The decoder's successful output: declared width/height, the 1600 levels
and the detected format tag. -/
structure ParsedPixels where
  w : ℕ
  h : ℕ
  levels : List ℕ
  format : PixelFormat
deriving DecidableEq

/-- The decoder's malformed-input errors, carrying the data the thrown
messages interpolate: the offending length, or the offending character and
its index. -/
inductive DecodeError
  | badLength (len : ℕ)
  | badChar (c : Char) (i : ℕ)
deriving DecidableEq

instance {ε α : Type} [DecidableEq ε] [DecidableEq α] :
    DecidableEq (Except ε α) := fun a b =>
  match a, b with
  | .ok a, .ok b =>
    if h : a = b then isTrue (congrArg _ h)
    else isFalse (by intro he; cases he; exact h rfl)
  | .error a, .error b =>
    if h : a = b then isTrue (congrArg _ h)
    else isFalse (by intro he; cases he; exact h rfl)
  | .ok _, .error _ => isFalse (by intro he; cases he)
  | .error _, .ok _ => isFalse (by intro he; cases he)

/-- The characters `String.prototype.trim` removes: ASCII whitespace and
line terminators plus NBSP, LS, PS and ZWNBSP. -/
def jsIsWhitespace (c : Char) : Bool :=
  c.toNat == 9 || c.toNat == 10 || c.toNat == 11 || c.toNat == 12 ||
  c.toNat == 13 || c.toNat == 32 || c.toNat == 160 || c.toNat == 0x2028 ||
  c.toNat == 0x2029 || c.toNat == 0xFEFF

/-- `raw.trim()`: strip whitespace from both ends. -/
def jsTrim (s : List Char) : List Char :=
  ((s.dropWhile jsIsWhitespace).reverse.dropWhile jsIsWhitespace).reverse

/-- `parseInt(c, 16)` on a single character: a value for `0-9`, `a-f`, `A-F`
and `NaN` (here `none`) otherwise. -/
def hexDigit? (c : Char) : Option ℕ :=
  if '0' ≤ c ∧ c ≤ '9' then some (c.toNat - '0'.toNat)
  else if 'a' ≤ c ∧ c ≤ 'f' then some (c.toNat - 'a'.toNat + 10)
  else if 'A' ≤ c ∧ c ≤ 'F' then some (c.toNat - 'A'.toNat + 10)
  else none

/-- The decoder's `for` loop over the 1600 characters starting at index `i`:
in binary mode a character maps to 1 exactly when it is `'1'`; in hex mode an
invalid character raises the bad-char error at its index, otherwise its hex
value is used. -/
def decodeLevels (isBinary : Bool) : List Char → ℕ → Except DecodeError (List ℕ)
  | [], _ => .ok []
  | c :: rest, i =>
    if isBinary then
      match decodeLevels isBinary rest (i + 1) with
      | .error e => .error e
      | .ok tl => .ok ((if c == '1' then 1 else 0) :: tl)
    else
      match hexDigit? c with
      | none => .error (.badChar c i)
      | some v =>
        match decodeLevels isBinary rest (i + 1) with
        | .error e => .error e
        | .ok tl => .ok (v :: tl)

/-- `parseNormiesPixelString(raw)`: trim, validate length 1600, detect binary
(`/^[01]+$/`) versus hex, decode all 1600 levels, and return `{ w: 40, h: 40,
levels, format }`. -/
def parseNormiesPixelString (raw : List Char) : Except DecodeError ParsedPixels :=
  let s := jsTrim raw
  if s.length ≠ 1600 then .error (.badLength s.length)
  else
    let isBinary := s.all (fun c => c == '0' || c == '1')
    match decodeLevels isBinary s 0 with
    | .error e => .error e
    | .ok levels =>
      .ok ⟨40, 40, levels, if isBinary then .binary else .hex⟩

lemma dropWhile_eq_self_of_forall {p : Char → Bool} :
    ∀ l : List Char, (∀ c ∈ l, p c = false) → l.dropWhile p = l
  | [], _ => rfl
  | a :: t, h => by
    simp [List.dropWhile_cons, h a (List.mem_cons_self a t)]

lemma jsTrim_no_ws (s : List Char)
    (h : ∀ c ∈ s, jsIsWhitespace c = false) : jsTrim s = s := by
  unfold jsTrim
  rw [dropWhile_eq_self_of_forall s h,
    dropWhile_eq_self_of_forall s.reverse (fun c hc => h c (List.mem_reverse.1 hc)),
    List.reverse_reverse]

lemma length_dropWhile_le' (p : Char → Bool) :
    ∀ l : List Char, (l.dropWhile p).length ≤ l.length
  | [] => le_refl _
  | a :: t => by
    rw [List.dropWhile_cons]
    split
    · exact le_trans (length_dropWhile_le' p t) (Nat.le_succ _)
    · exact le_refl _

lemma jsTrim_length_le (s : List Char) : (jsTrim s).length ≤ s.length := by
  unfold jsTrim
  calc ((s.dropWhile jsIsWhitespace).reverse.dropWhile jsIsWhitespace).reverse.length
      = ((s.dropWhile jsIsWhitespace).reverse.dropWhile jsIsWhitespace).length := by
        rw [List.length_reverse]
    _ ≤ (s.dropWhile jsIsWhitespace).reverse.length := length_dropWhile_le' _ _
    _ = (s.dropWhile jsIsWhitespace).length := by rw [List.length_reverse]
    _ ≤ s.length := length_dropWhile_le' _ _

lemma decodeLevels_binary (s : List Char) (i : ℕ) :
    decodeLevels true s i = .ok (s.map fun c => if c == '1' then 1 else 0) := by
  induction s generalizing i with
  | nil => rfl
  | cons c t ih => simp [decodeLevels, ih (i + 1)]

lemma decodeLevels_ok_length {b : Bool} :
    ∀ (s : List Char) (i : ℕ) (ls : List ℕ),
      decodeLevels b s i = .ok ls → ls.length = s.length
  | [], _, ls, h => by
    simp only [decodeLevels] at h
    cases h
    rfl
  | c :: t, i, ls, h => by
    unfold decodeLevels at h
    by_cases hb : b = true
    · subst hb
      simp only [if_pos rfl] at h
      cases hdec : decodeLevels true t (i + 1) with
      | error e => rw [hdec] at h; cases h
      | ok tl =>
        rw [hdec] at h
        cases h
        simpa using decodeLevels_ok_length t (i + 1) tl hdec
    · rw [if_neg hb] at h
      cases hx : hexDigit? c with
      | none => rw [hx] at h; cases h
      | some v =>
        rw [hx] at h
        cases hdec : decodeLevels b t (i + 1) with
        | error e => rw [hdec] at h; cases h
        | ok tl =>
          rw [hdec] at h
          cases h
          simpa using decodeLevels_ok_length t (i + 1) tl hdec

lemma decodeLevels_hex_error :
    ∀ (good : List Char) (c : Char) (rest : List Char) (i : ℕ),
      (∀ a ∈ good, (hexDigit? a).isSome) → hexDigit? c = none →
      decodeLevels false (good ++ c :: rest) i = .error (.badChar c (i + good.length))
  | [], c, rest, i, _, hc => by simp [decodeLevels, hc]
  | a :: good, c, rest, i, hgood, hc => by
    have ha := hgood a (List.mem_cons_self a good)
    obtain ⟨v, hv⟩ := Option.isSome_iff_exists.1 ha
    have htail := decodeLevels_hex_error good c rest (i + 1)
      (fun x hx => hgood x (List.mem_cons_of_mem a hx)) hc
    have harith : i + 1 + good.length = i + (good.length + 1) := by omega
    simp only [List.cons_append, decodeLevels, Bool.false_eq_true, if_false,
      hv, List.append_eq, htail, List.length_cons, harith]

/-- A character that is not a hex digit is neither `'0'` nor `'1'`. -/
lemma not_binary_of_not_hex {c : Char} (hc : hexDigit? c = none) :
    (c == '0' || c == '1') = false := by
  cases hbeq : (c == '0' || c == '1') with
  | false => rfl
  | true =>
    exfalso
    have hor : c = '0' ∨ c = '1' := by simpa using hbeq
    rcases hor with rfl | rfl
    · rw [show hexDigit? '0' = some 0 from by decide] at hc
      cases hc
    · rw [show hexDigit? '1' = some 1 from by decide] at hc
      cases hc

lemma dropWhile_cons_false {p : Char → Bool} {a : Char} {l : List Char}
    (h : p a = false) : (a :: l).dropWhile p = a :: l := by
  simp [List.dropWhile_cons, h]

lemma all_replicate_binary (n : ℕ) :
    (List.replicate n '0').all (fun c => c == '0' || c == '1') = true := by
  simp [List.all_eq_true, List.mem_replicate]

lemma jsTrim_replicate_zero (n : ℕ) :
    jsTrim (List.replicate n '0') = List.replicate n '0' :=
  jsTrim_no_ws _ (fun c hc => by rw [List.eq_of_mem_replicate hc]; decide)

lemma jsTrim_zero_space :
    jsTrim (List.replicate 1600 '0' ++ [' ']) = List.replicate 1600 '0' := by
  unfold jsTrim
  have h1 : (List.replicate 1600 '0' ++ [' ']).dropWhile jsIsWhitespace
      = List.replicate 1600 '0' ++ [' '] := by
    rw [show (1600 : ℕ) = 1599 + 1 from rfl, List.replicate_succ, List.cons_append]
    exact dropWhile_cons_false (by decide)
  rw [h1, List.reverse_append, List.reverse_replicate]
  have h2 : ([' '].reverse ++ List.replicate 1600 '0').dropWhile jsIsWhitespace
      = List.replicate 1600 '0' := by
    simp only [List.reverse_singleton, List.singleton_append, List.dropWhile_cons]
    rw [if_pos (by decide)]
    exact dropWhile_eq_self_of_forall _
      (fun c hc => by rw [List.eq_of_mem_replicate hc]; decide)
  rw [h2, List.reverse_replicate]

/-- On input whose trimmed form has length exactly 1600, the decoder reduces
to the level-decoding loop (the length guard passes). -/
lemma parse_eq_of_trim (raw s : List Char) (h : jsTrim raw = s)
    (hlen : s.length = 1600) :
    parseNormiesPixelString raw =
      match decodeLevels (s.all fun c => c == '0' || c == '1') s 0 with
      | .error e => .error e
      | .ok levels =>
        .ok ⟨40, 40, levels,
          if s.all (fun c => c == '0' || c == '1') then .binary else .hex⟩ := by
  simp only [parseNormiesPixelString, h, hlen]
  rw [if_neg (by norm_num)]

lemma parse_zero_grid :
    parseNormiesPixelString (List.replicate 1600 '0')
      = .ok ⟨40, 40, List.replicate 1600 0, .binary⟩ := by
  rw [parse_eq_of_trim _ _ (jsTrim_replicate_zero 1600) (List.length_replicate _ _),
    all_replicate_binary, decodeLevels_binary, List.map_replicate]
  rfl

/-- Claim C4 (amended).  The decoder fails with the bad-length error on every
raw string whose *trimmed* length is not 1600 — in particular on every raw
string of length 1599 (trimming cannot lengthen); in hex mode (the trimmed
1600-character string is not all `'0'`/`'1'`), an invalid hex character after
a prefix of valid hex digits raises the bad-char error carrying exactly that
character and its index; and every successful decode carries width 40,
height 40 and exactly 1600 levels. -/
theorem parse_error_handling :
    (∀ raw : List Char, (jsTrim raw).length ≠ 1600 →
      parseNormiesPixelString raw = .error (.badLength (jsTrim raw).length)) ∧
    (∀ raw : List Char, raw.length = 1599 →
      parseNormiesPixelString raw = .error (.badLength (jsTrim raw).length)) ∧
    (∀ (good : List Char) (c : Char) (rest : List Char) (raw : List Char),
      jsTrim raw = good ++ c :: rest → (good ++ c :: rest).length = 1600 →
      (∀ a ∈ good, (hexDigit? a).isSome) → hexDigit? c = none →
      parseNormiesPixelString raw = .error (.badChar c good.length)) ∧
    (∀ (raw : List Char) (p : ParsedPixels),
      parseNormiesPixelString raw = .ok p →
      p.w = 40 ∧ p.h = 40 ∧ p.levels.length = 1600) := by
  have hlen : ∀ raw : List Char, (jsTrim raw).length ≠ 1600 →
      parseNormiesPixelString raw = .error (.badLength (jsTrim raw).length) := by
    intro raw h
    simp only [parseNormiesPixelString]
    rw [if_pos h]
  refine ⟨hlen, ?_, ?_, ?_⟩
  · intro raw h
    exact hlen raw (by have := jsTrim_length_le raw; omega)
  · intro good c rest raw htrim hlen1600 hgood hc
    have hnotbin : (good ++ c :: rest).all (fun c => c == '0' || c == '1')
        = false := by
      rw [List.all_eq_false]
      exact ⟨c, by simp, by simp [not_binary_of_not_hex hc]⟩
    rw [parse_eq_of_trim raw _ htrim hlen1600, hnotbin,
      decodeLevels_hex_error good c rest 0 hgood hc]
    simp
  · intro raw p h
    simp only [parseNormiesPixelString] at h
    by_cases hl : (jsTrim raw).length ≠ 1600
    · rw [if_pos hl] at h
      cases h
    · rw [if_neg hl] at h
      push_neg at hl
      cases hdec : decodeLevels ((jsTrim raw).all fun c => c == '0' || c == '1')
          (jsTrim raw) 0 with
      | error e => rw [hdec] at h; cases h
      | ok levels =>
        rw [hdec] at h
        cases h
        refine ⟨rfl, rfl, ?_⟩
        rw [decodeLevels_ok_length _ _ _ hdec]
        exact hl

/-- Witness for C4 (amended): the four parts instantiated — a 3-character
string fails with the bad-length error; the 1599-zeros string fails with the
bad-length error 1599; the string of 1599 zeros followed by `'g'` (not all
binary, so hex mode) fails with the bad-char error naming `'g'` and index
1599; and the all-zeros 1600-character success carries `w = 40`, `h = 40` and
1600 levels. -/
theorem parse_error_handling_witness :
    parseNormiesPixelString (List.replicate 3 '0') = .error (.badLength 3) ∧
    parseNormiesPixelString (List.replicate 1599 '0')
      = .error (.badLength 1599) ∧
    parseNormiesPixelString (List.replicate 1599 '0' ++ ['g'])
      = .error (.badChar 'g' 1599) ∧
    ((40 : ℕ) = 40 ∧ (40 : ℕ) = 40 ∧ (List.replicate 1600 0).length = 1600) := by
  obtain ⟨h1, h2, h3, h4⟩ := parse_error_handling
  refine ⟨?_, ?_, ?_, ?_⟩
  · have := h1 (List.replicate 3 '0')
      (by rw [jsTrim_replicate_zero, List.length_replicate]; norm_num)
    rwa [jsTrim_replicate_zero, List.length_replicate] at this
  · have := h2 (List.replicate 1599 '0') (List.length_replicate _ _)
    rwa [jsTrim_replicate_zero, List.length_replicate] at this
  · have htrim : jsTrim (List.replicate 1599 '0' ++ ['g'])
        = List.replicate 1599 '0' ++ 'g' :: [] := by
      refine jsTrim_no_ws _ ?_
      intro c hc
      rcases List.mem_append.1 hc with h | h
      · rw [List.eq_of_mem_replicate h]; decide
      · rw [List.mem_singleton.1 h]; decide
    have hlen : (List.replicate 1599 '0' ++ 'g' :: []).length = 1600 := by
      rw [List.length_append, List.length_replicate, List.length_singleton]
    have := h3 (List.replicate 1599 '0') 'g' [] (List.replicate 1599 '0' ++ ['g'])
      htrim hlen
      (fun a ha => by rw [List.eq_of_mem_replicate ha]; decide)
      (by decide)
    rwa [List.length_replicate] at this
  · exact h4 (List.replicate 1600 '0') ⟨40, 40, List.replicate 1600 0, .binary⟩
      parse_zero_grid

/-- Claim C4 (counterexample to the claim as stated).  A raw string of length
1601 need not fail: 1600 zeros followed by a space is trimmed to length 1600
and decodes successfully, so the decoder does not reject every raw string
whose length differs from 1600. -/
theorem parse_length_1601_succeeds :
    (List.replicate 1600 '0' ++ [' ']).length = 1601 ∧
    parseNormiesPixelString (List.replicate 1600 '0' ++ [' '])
      = .ok ⟨40, 40, List.replicate 1600 0, .binary⟩ := by
  constructor
  · rw [List.length_append, List.length_replicate, List.length_singleton]
  · rw [parse_eq_of_trim _ _ jsTrim_zero_space (List.length_replicate _ _),
      all_replicate_binary, decodeLevels_binary, List.map_replicate]
    rfl

lemma clamp_mem (n a b : ℚ) (h : a ≤ b) :
    a ≤ clamp n a b ∧ clamp n a b ≤ b := by
  unfold clamp
  exact ⟨le_max_left a _, max_le h (min_le_left b n)⟩

lemma clamp_round_int (q : ℚ) :
    ∃ k : ℤ, clamp ((NormieVoxels.jsRound q : ℤ) : ℚ) 2 16 = (k : ℚ) ∧
      2 ≤ k ∧ k ≤ 16 := by
  refine ⟨max 2 (min 16 (NormieVoxels.jsRound q)), ?_, ?_, ?_⟩
  · unfold clamp
    push_cast
    norm_num
  · exact le_max_left 2 _
  · exact max_le (by norm_num) (min_le_left 16 _)

/-- Claim C5 (amended).  `deriveStudioParams` is total by construction and for
every traits input (absent payload, absent attribute list, missing categories
or unrecognized values) yields in-range fields: `noiseScale` is an integer of
`[2,16]`, `baseStarfield` of `[0,1]`, `autoRotateSpeed` of `[0.15,2.2]`,
`audioStarStrengthBase` of `[0.12,0.6]` and `audioSmoothingBase` of
`[0.75,0.98]` (the code clamps to the tighter `[0.8,0.97]`).  For the empty
trait list `lightPreset` is the Human default 0, but `materialMode` is 4, not
the Human default 0: the default face string hashes below `0.25`, so the
face-hash rule steps the Human material back by one (mod 5). -/
theorem deriveStudioParams_total_in_range :
    (∀ traits : Option TraitsResponse,
      (∃ k : ℤ, (deriveStudioParams traits).noiseScale = (k : ℚ) ∧
        2 ≤ k ∧ k ≤ 16) ∧
      2 ≤ (deriveStudioParams traits).noiseScale ∧
      (deriveStudioParams traits).noiseScale ≤ 16 ∧
      0 ≤ (deriveStudioParams traits).baseStarfield ∧
      (deriveStudioParams traits).baseStarfield ≤ 1 ∧
      0.15 ≤ (deriveStudioParams traits).autoRotateSpeed ∧
      (deriveStudioParams traits).autoRotateSpeed ≤ 2.2 ∧
      0.12 ≤ (deriveStudioParams traits).audioStarStrengthBase ∧
      (deriveStudioParams traits).audioStarStrengthBase ≤ 0.6 ∧
      0.75 ≤ (deriveStudioParams traits).audioSmoothingBase ∧
      (deriveStudioParams traits).audioSmoothingBase ≤ 0.98) ∧
    (deriveStudioParams (some ⟨some []⟩)).lightPreset = 0 ∧
    (deriveStudioParams (some ⟨some []⟩)).materialMode = 4 := by
  refine ⟨fun traits => ?_, ?_, ?_⟩
  · simp only [deriveStudioParams]
    refine ⟨clamp_round_int _, (clamp_mem _ 2 16 (by norm_num)).1,
      (clamp_mem _ 2 16 (by norm_num)).2,
      (clamp_mem _ 0 1 (by norm_num)).1, (clamp_mem _ 0 1 (by norm_num)).2,
      (clamp_mem _ 0.15 2.2 (by norm_num)).1,
      (clamp_mem _ 0.15 2.2 (by norm_num)).2,
      (clamp_mem _ 0.12 0.6 (by norm_num)).1,
      (clamp_mem _ 0.12 0.6 (by norm_num)).2,
      le_trans (by norm_num) (clamp_mem _ 0.8 0.97 (by norm_num)).1,
      le_trans (clamp_mem _ 0.8 0.97 (by norm_num)).2 (by norm_num)⟩
  · simp only [deriveStudioParams, getTrait, List.find?, TYPE_PRESET,
      EXPRESSION_MOD, orDefault, hashStr, Option.getD, Option.map,
      beq_self_eq_true, if_true]
    norm_num
  · simp only [deriveStudioParams, getTrait, List.find?, TYPE_PRESET,
      EXPRESSION_MOD, orDefault, hashStr, Option.getD, Option.map,
      beq_self_eq_true, if_true]
    rw [show hashStrBits ("face") = 292255708 from by decide]
    norm_num

/-- Claim C5 (counterexample to the claim as stated).  For the empty trait
list the derived `materialMode` is 4, while the Human type preset's material
default is 0: the empty facial-feature value falls back to hashing the string
"face", whose hash is below 0.25, which steps the material mode back by one
(mod 5).  So `materialMode` does not equal the Human-type default. -/
theorem deriveStudioParams_empty_material_not_default :
    (deriveStudioParams (some ⟨some []⟩)).materialMode = 4 ∧
    ((TYPE_PRESET ("Human")).getD ⟨0, 0, 0.18, 6, 0.8⟩).mat = 0 ∧
    (4 : ℕ) ≠ 0 := by
  refine ⟨?_, rfl, by norm_num⟩
  simp only [deriveStudioParams, getTrait, List.find?, TYPE_PRESET,
    EXPRESSION_MOD, orDefault, hashStr, Option.getD, Option.map,
    beq_self_eq_true, if_true]
  rw [show hashStrBits ("face") = 292255708 from by decide]
  norm_num

end NormieTraitStudio

namespace NormieAmbient3d

/-- One trait attribute as consumed by `applyTraits` in `NormieAmbient3d.ts`
(values modelled as the strings `String(a.value)` coerces them to). -/
structure Trait where
  trait_type : String
  value : String
deriving DecidableEq

/-- `clamp01(v)` from `NormieAmbient3d.ts`. -/
def clamp01 (v : ℚ) : ℚ := max 0 (min 1 v)

/-- `lerp(a, b, t)` from `NormieAmbient3d.ts`. -/
def lerp (a b t : ℚ) : ℚ := a + (b - a) * t

/-- One step of the `mulberry32` closure: advances the accumulated seed by
`0x6d2b79f5` and scrambles it into a draw of `[0,1)`; returns the advanced
seed and the draw. -/
def mulberry32Next (seed : ℕ) : ℕ × ℚ :=
  let s' := seed + 0x6d2b79f5
  let t0 := NormieVoxels.u32 s'
  let t1 := NormieVoxels.u32 ((t0 ^^^ (t0 >>> 15)) * (t0 ||| 1))
  let t2 := t1 ^^^ NormieVoxels.u32
    (t1 + NormieVoxels.u32 ((t1 ^^^ (t1 >>> 7)) * (t1 ||| 61)))
  (s', ((t2 ^^^ (t2 >>> 14)) : ℚ) / 4294967296)

/-- The `SCALES` table. -/
def SCALES : String → Option (List ℕ)
  | "major" => some [0, 2, 4, 5, 7, 9, 11]
  | "minor" => some [0, 2, 3, 5, 7, 8, 10]
  | "pentatonic" => some [0, 2, 4, 7, 9]
  | "dorian" => some [0, 2, 3, 5, 7, 9, 10]
  | "wholetone" => some [0, 2, 4, 6, 8, 10]
  | "lydian" => some [0, 2, 4, 6, 7, 9, 11]
  | _ => none

/-- One row of `TYPE_CONFIG`. -/
structure TypeConfig where
  scale : String
  baseNote : ℤ
deriving DecidableEq

/-- The `TYPE_CONFIG` table. -/
def TYPE_CONFIG : String → Option TypeConfig
  | "Human" => some ⟨"major", 60⟩
  | "Cat" => some ⟨"pentatonic", 62⟩
  | "Alien" => some ⟨"wholetone", 58⟩
  | "Agent" => some ⟨"minor", 57⟩
  | _ => none

/-- One row of `AGE_CONFIG`. -/
structure AgeConfig where
  tempoMult : ℚ
  octaveShift : ℤ
deriving DecidableEq

/-- The `AGE_CONFIG` table. -/
def AGE_CONFIG : String → Option AgeConfig
  | "Young" => some ⟨1.2, 1⟩
  | "Middle-Aged" => some ⟨1.0, 0⟩
  | "Old" => some ⟨0.7, -1⟩
  | _ => none

/-- The `EXPRESSION_SPACE` table. -/
def EXPRESSION_SPACE : String → Option ℚ
  | "Neutral" => some 0.35
  | "Slight Smile" => some 0.45
  | "Serious" => some 0.25
  | "Happy" => some 0.55
  | "Surprised" => some 0.4
  | "Angry" => some 0.2
  | "Sad" => some 0.65
  | _ => none

/-- One row of `GENDER_RANGE`. -/
structure GenderRange where
  low : ℤ
  high : ℤ
deriving DecidableEq

/-- The `GENDER_RANGE` table. -/
def GENDER_RANGE : String → Option GenderRange
  | "Male" => some ⟨-12, 5⟩
  | "Female" => some ⟨-2, 10⟩
  | "Non-Binary" => some ⟨-6, 8⟩
  | _ => none

/-- The `HAIR_PATTERNS` table. -/
def HAIR_PATTERNS : String → Option (List ℕ)
  | "Short Hair" => some [0, 2, 4, 6]
  | "Long Hair" => some [0, 1, 3, 5, 7]
  | "Curly Hair" => some [0, 3, 1, 4, 2, 5]
  | "Straight Hair" => some [0, 2, 4, 2]
  | "Spiky Hair" => some [0, 4, 1, 5, 2]
  | "Bald" => some [0, 7]
  | "Buzz Cut" => some [0, 2]
  | "Mohawk" => some [0, 6, 1, 7]
  | "Ponytail" => some [0, 1, 2, 3, 4, 5, 6]
  | "Pigtails" => some [0, 4, 2, 6, 0, 5]
  | "Afro" => some [0, 2, 4, 6, 3, 5, 7]
  | "Bob" => some [0, 3, 5, 3]
  | "Braids" => some [0, 1, 3, 1, 5, 3]
  | "Dreadlocks" => some [0, 2, 5, 2, 7, 5]
  | "Side Part" => some [0, 2, 5, 7]
  | "Bangs" => some [0, 1, 0, 3, 0, 5]
  | "Messy Hair" => some [0, 5, 2, 7, 1, 6, 3]
  | "Slicked Back" => some [0, 4, 7, 4]
  | "Undercut" => some [0, 3, 6, 3]
  | "Wavy Hair" => some [0, 1, 3, 2, 4, 3, 5]
  | "Top Knot" => some [0, 5, 3, 7]
  | _ => none

/-- `DEFAULT_PATTERN`. -/
def DEFAULT_PATTERN : List ℕ := [0, 2, 4, 6]

/-- The `EYES_DELAY` table. -/
def EYES_DELAY : String → Option ℚ
  | "Classic Shades" => some 0.4
  | "Big Shades" => some 0.55
  | "Small Shades" => some 0.3
  | "Round Glasses" => some 0.5
  | "Square Glasses" => some 0.35
  | "Monocle" => some 0.6
  | "Eye Patch" => some 0.2
  | "Narrow Eyes" => some 0.15
  | "Wide Eyes" => some 0.45
  | "Wink" => some 0.25
  | "Closed Eyes" => some 0.65
  | "Glowing Eyes" => some 0.7
  | "Laser Eyes" => some 0.1
  | "Crying" => some 0.55
  | _ => none

/-- One row of `FACE_HARMONICS`. -/
structure Harmonics where
  harmonics : ℕ
  brightness : ℚ
deriving DecidableEq

/-- The `FACE_HARMONICS` table. -/
def FACE_HARMONICS : String → Option Harmonics
  | "Full Beard" => some ⟨5, 0.3⟩
  | "Mustache" => some ⟨4, 0.5⟩
  | "Goatee" => some ⟨3, 0.6⟩
  | "Stubble" => some ⟨3, 0.4⟩
  | "Shadow Beard" => some ⟨4, 0.35⟩
  | "Clean Shaven" => some ⟨2, 0.8⟩
  | "Sideburns" => some ⟨4, 0.45⟩
  | "Scar" => some ⟨6, 0.2⟩
  | "Mole" => some ⟨2, 0.7⟩
  | "Freckles" => some ⟨3, 0.75⟩
  | "Dimples" => some ⟨2, 0.85⟩
  | "Wrinkles" => some ⟨5, 0.25⟩
  | "Tattoo" => some ⟨6, 0.4⟩
  | "Birthmark" => some ⟨3, 0.6⟩
  | "Piercing" => some ⟨4, 0.55⟩
  | "Blush" => some ⟨2, 0.9⟩
  | "Cleft Chin" => some ⟨3, 0.5⟩
  | _ => none

/-- `DEFAULT_HARMONICS`. -/
def DEFAULT_HARMONICS : Harmonics := ⟨3, 0.5⟩

/-- The engine's module-level mutable state: audio-node handles are modelled
as `Option` values (present after `ensureAudio`, absent before), node scalar
parameters as the rationals they hold, and the `mulberry32` closure as its
accumulated seed. -/
structure EngineState where
  hasCtx : Bool
  masterGain : Option ℚ
  delayFeedbackGain : Option ℚ
  delayTimeValue : Option ℚ
  delayFilterFreq : Option ℚ
  hasAnalyser : Bool
  isPlaying : Bool
  schedulerId : Option ℕ
  timerCount : ℕ
  meterSmoothed : ℚ
  intensity01 : ℚ
  pixelData : Option (List Char)
  tokenId : ℕ
  traits : List Trait
  scale : List ℕ
  baseNote : ℤ
  tempoMs : ℤ
  octaveShift : ℤ
  genderRange : GenderRange
  arpPattern : List ℕ
  delayAmount : ℚ
  harmonicConfig : Harmonics
  expressionSpace : ℚ
  nextNoteTime : ℚ
  seqStep : ℕ
  rngSeed : Option ℕ
deriving DecidableEq

/-- The `for` loop of `applyTraits` over the attribute list: the *last*
matching attribute wins. -/
def lastTrait (attrs : List Trait) (name dflt : String) : String :=
  attrs.foldl (fun acc a => if a.trait_type == name then a.value else acc) dflt

/-- `applyTraits(attrs)` from `NormieAmbient3d.ts`: recomputes every derived
musical parameter from the trait tables and the current intensity, and
rewrites the delay node parameters when those nodes exist.  Nothing is
accumulated: each derived field is overwritten with a fresh table/lerp
value. -/
def applyTraits (attrs : List Trait) (s : EngineState) : EngineState :=
  let type := lastTrait attrs ("Type") ("Human")
  let age := lastTrait attrs ("Age") ("Middle-Aged")
  let expression := lastTrait attrs ("Expression") ("Neutral")
  let gender := lastTrait attrs ("Gender") ("Non-Binary")
  let hair := lastTrait attrs ("Hair Style") ("")
  let eyes := lastTrait attrs ("Eyes") ("")
  let face := lastTrait attrs ("Facial Feature") ("")
  let tc := (TYPE_CONFIG type).getD ⟨"major", 60⟩
  let ac := (AGE_CONFIG age).getD ⟨1.0, 0⟩
  let scl := (SCALES tc.scale).getD [0, 2, 4, 5, 7, 9, 11]
  let tempo1 : ℤ := NormieVoxels.jsRound (400 / ac.tempoMult)
  let tempoMs : ℤ := NormieVoxels.jsRound
    (lerp ((tempo1 : ℚ) * 1.08) ((tempo1 : ℚ) * 0.92) s.intensity01)
  let delayAmount := (EYES_DELAY eyes).getD 0.3
  let expressionSpace := (EXPRESSION_SPACE expression).getD 0.35
  { s with
    scale := scl
    baseNote := tc.baseNote
    tempoMs := tempoMs
    octaveShift := ac.octaveShift
    genderRange := (GENDER_RANGE gender).getD ⟨-6, 8⟩
    arpPattern := (HAIR_PATTERNS hair).getD DEFAULT_PATTERN
    delayAmount := delayAmount
    harmonicConfig := (FACE_HARMONICS face).getD DEFAULT_HARMONICS
    expressionSpace := expressionSpace
    delayFeedbackGain := s.delayFeedbackGain.map fun _ =>
      clamp01 (delayAmount * lerp 0.9 1.15 expressionSpace)
    delayTimeValue := s.delayTimeValue.map fun _ => 0.2 + delayAmount * 0.4
    delayFilterFreq := s.delayFilterFreq.map fun _ =>
      lerp 2600 1200 (clamp01 expressionSpace) }

/-- `colDensity(col)`: the fraction of the 40 cells of the column that hold
the character `'1'` (0 when no pixel data is loaded). -/
def colDensity (pixelData : Option (List Char)) (col : ℕ) : ℚ :=
  match pixelData with
  | none => 0
  | some px =>
    (((List.range 40).foldl (fun c y =>
      c + (if px.getD (y * 40 + col) ' ' == '1' then 1 else 0)) 0 : ℕ) : ℚ) / 40

/-- `getScaleNote(degree)`: snaps a scale degree to a MIDI note via the
derived scale, base note and octave shift. -/
def getScaleNote (s : EngineState) (degree : ℤ) : ℤ :=
  let len : ℤ := s.scale.length
  let oct := degree / len
  let idx := ((degree % len) + len) % len
  s.baseNote + (s.scale.getD idx.toNat 0 : ℤ) + oct * 12 + s.octaveShift * 12

/-- The oscillator types the scheduler requests. -/
inductive OscKind
  | sine
  | triangle
deriving DecidableEq

/-- One scheduled musical event.  `playTone`/`playPad` receive the frequency
`midiToFreq(midi) = 440·2^((midi-69)/12)`; the event records the MIDI pitch
together with start time, duration and velocity. -/
inductive AudioEvent
  | tone (midi : ℤ) (time dur vel : ℚ) (osc : OscKind)
  | pad (midi : ℤ) (time dur vel : ℚ)
deriving DecidableEq

/-- The `while (nextNoteTime < ctx.currentTime + 1.2)` body of
`scheduleNotes`, with explicit fuel (the real loop terminates because the
tempo step is positive): melody and secondary voice fire probabilistically
from the column density and the shared draw `r`, a pad fires every 8 steps
and a bass note every 4. -/
def scheduleNotesLoop : ℕ → ℚ → EngineState → List AudioEvent →
    EngineState × List AudioEvent
  | 0, _, s, acc => (s, acc)
  | fuel + 1, now, s, acc =>
    if s.nextNoteTime < now + 1.2 then
      match s.rngSeed with
      | none => (s, acc)
      | some seed0 =>
        let densityBoost := lerp 0.85 1.25 s.intensity01
        let velBoost := lerp 0.85 1.35 s.intensity01
        let col := s.seqStep % 40
        let density := match s.pixelData with
          | none => 0
          | some _ => colDensity s.pixelData col
        let step1 := mulberry32Next seed0
        let r := step1.2
        let arpIdx := s.seqStep % s.arpPattern.length
        let arpDeg : ℤ := (s.arpPattern.getD arpIdx 0 : ℤ)
        let melody :=
          if density > 0.05 ∧ r < (0.6 + density * 0.3) * densityBoost then
            let rangeDeg := (s.genderRange.low : ℚ) +
              density * ((s.genderRange.high : ℚ) - (s.genderRange.low : ℚ))
            let midi := getScaleNote s (⌊rangeDeg⌋ + arpDeg)
            let step2 := mulberry32Next step1.1
            let dur := (s.tempoMs : ℚ) / 1000 * (1.5 + step2.2 * 2)
            let vel := (0.2 + density * 0.5) * velBoost
            (step2.1, [AudioEvent.tone midi s.nextNoteTime dur vel OscKind.sine])
          else (step1.1, [])
        let secondary :=
          if density > 0.2 ∧ r < 0.25 * densityBoost then
            let midi := getScaleNote s (arpDeg + ⌊density * 6⌋ + 5)
            let step2 := mulberry32Next melody.1
            let dur := (s.tempoMs : ℚ) / 1000 * (2 + step2.2 * 3)
            (step2.1, [AudioEvent.tone midi (s.nextNoteTime + 0.1) dur
              (0.12 * velBoost) OscKind.triangle])
          else (melody.1, [])
        let pad :=
          if s.seqStep % 8 = 0 then
            let step2 := mulberry32Next secondary.1
            let padRoot := getScaleNote s (⌊step2.2 * 4⌋ + s.genderRange.low)
            let padDur := (s.tempoMs : ℚ) / 1000 * 8
            (step2.1, [AudioEvent.pad padRoot s.nextNoteTime padDur
                ((0.4 + density * 0.3) * velBoost),
              AudioEvent.pad (getScaleNote s (2 + arpDeg)) s.nextNoteTime padDur
                (0.2 * velBoost)])
          else (secondary.1, [])
        let bass :=
          if s.seqStep % 4 = 0 then
            let step2 := mulberry32Next pad.1
            let bassMidi := getScaleNote s (⌊step2.2 * 3⌋ + s.genderRange.low) - 12
            let bassDur := (s.tempoMs : ℚ) / 1000 * 4
            (step2.1, [AudioEvent.tone bassMidi s.nextNoteTime bassDur
              (0.15 * velBoost) OscKind.sine])
          else (pad.1, [])
        scheduleNotesLoop fuel now
          { s with
            rngSeed := some bass.1,
            nextNoteTime := s.nextNoteTime + (s.tempoMs : ℚ) / 1000,
            seqStep := s.seqStep + 1 }
          (acc ++ melody.2 ++ secondary.2 ++ pad.2 ++ bass.2)
    else (s, acc)

/-- `scheduleNotes()` from `NormieAmbient3d.ts`: guard
`if (!ctx || !rng || !isPlaying) return;`, then the lookahead loop, then
`schedulerId = setTimeout(scheduleNotes, 100)`.  Returns the new state and
the events scheduled by this invocation; on the early return no event is
emitted and no timer is registered. -/
def scheduleNotes (fuel : ℕ) (now : ℚ) (s : EngineState) :
    EngineState × List AudioEvent :=
  if s.hasCtx = true ∧ s.rngSeed.isSome ∧ s.isPlaying = true then
    let r := scheduleNotesLoop fuel now s []
    ({ r.1 with
      schedulerId := some r.1.timerCount,
      timerCount := r.1.timerCount + 1 }, r.2)
  else (s, [])

/-- `stop()` from `NormieAmbient3d.ts`: clears the playing flag, clears
(`clearTimeout`) any pending scheduler timer and zeroes the smoothed
loudness. -/
def stop (s : EngineState) : EngineState :=
  { s with isPlaying := false, schedulerId := none, meterSmoothed := 0 }

/-- `setVolume(v01)`: a no-op before the master gain node exists, otherwise
sets the master gain to the clamped value. -/
def setVolume (v : ℚ) (s : EngineState) : EngineState :=
  match s.masterGain with
  | none => s
  | some _ => { s with masterGain := some (clamp01 v) }

/-- `setIntensity(v01)`: stores the clamped intensity and re-derives every
trait parameter via `applyTraits`. -/
def setIntensity (v : ℚ) (s : EngineState) : EngineState :=
  applyTraits s.traits { s with intensity01 := clamp01 v }

/-- `getLevel01()` from `NormieAmbient3d.ts` with `raw` the RMS the analyser
reports for the current buffer: returns 0 without touching the smoothed
meter when stopped or unprimed, otherwise noise-floor-subtracts, boosts,
clamps and exponentially smooths, storing and returning the new smoothed
value. -/
def getLevel01 (s : EngineState) (raw : ℚ) : ℚ × EngineState :=
  if s.isPlaying = true ∧ s.hasAnalyser = true then
    let NOISE_FLOOR := lerp 0.02 0.012 s.intensity01
    let GAIN := lerp 1.9 3.2 s.intensity01
    let SMOOTHING := lerp 0.94 0.86 s.intensity01
    let boosted := max 0 (raw - NOISE_FLOOR) * GAIN
    let target := clamp01 boosted
    let m := s.meterSmoothed * SMOOTHING + target * (1 - SMOOTHING)
    (m, { s with meterSmoothed := m })
  else (0, s)

/-- Claim C8.  After `stop()`: the playing flag is cleared, the pending
scheduler timer is cleared (`schedulerId` is `none`, the `clearTimeout`
branch, not merely ignored), the smoothed loudness is zeroed, `getLevel01`
returns 0 (and leaves the meter untouched), and an invocation of the
scheduling loop on the stopped state emits no musical event and registers no
new timer. -/
theorem stop_cancels_everything (s : EngineState) (raw : ℚ) (fuel : ℕ)
    (now : ℚ) :
    (stop s).isPlaying = false ∧
    (stop s).schedulerId = none ∧
    (stop s).meterSmoothed = 0 ∧
    (getLevel01 (stop s) raw).1 = 0 ∧
    (getLevel01 (stop s) raw).2 = stop s ∧
    scheduleNotes fuel now (stop s) = (stop s, []) := by
  refine ⟨rfl, rfl, rfl, ?_, ?_, ?_⟩
  · simp [getLevel01, stop]
  · simp [getLevel01, stop]
  · simp [scheduleNotes, stop]

/-- The engine's module-level initial values: no audio nodes, not playing,
zero meter, default intensity 0.65 and the default derived parameters. -/
def initialState : EngineState where
  hasCtx := false
  masterGain := none
  delayFeedbackGain := none
  delayTimeValue := none
  delayFilterFreq := none
  hasAnalyser := false
  isPlaying := false
  schedulerId := none
  timerCount := 0
  meterSmoothed := 0
  intensity01 := 0.65
  pixelData := none
  tokenId := 0
  traits := []
  scale := [0, 2, 4, 5, 7, 9, 11]
  baseNote := 60
  tempoMs := 400
  octaveShift := 0
  genderRange := ⟨-6, 8⟩
  arpPattern := [0, 2, 4, 6]
  delayAmount := 0.3
  harmonicConfig := ⟨3, 0.5⟩
  expressionSpace := 0.35
  nextNoteTime := 0
  seqStep := 0
  rngSeed := none

/-- Claim C9.  `setVolume` is a safe no-op before the master gain exists and
otherwise stores the `[0,1]`-clamped value; `setIntensity` stores the clamped
intensity; both are total functions and idempotent (calling twice with the
same argument equals calling once); the re-derived tempo follows the
documented lerp formula `round(lerp(t·1.08, t·0.92, intensity))` with
`t = round(400 / ageTempoMult)`; and the derived tempo and delay-feedback
values after `setIntensity` depend only on the stored traits, the new
intensity and node presence — never on previously accumulated derived
state. -/
theorem setIntensity_setVolume_safe_idempotent (v : ℚ) (s : EngineState) :
    (s.masterGain = none → setVolume v s = s) ∧
    (∀ g : ℚ, s.masterGain = some g →
      (setVolume v s).masterGain = some (clamp01 v)) ∧
    0 ≤ clamp01 v ∧ clamp01 v ≤ 1 ∧
    setVolume v (setVolume v s) = setVolume v s ∧
    (setIntensity v s).intensity01 = clamp01 v ∧
    setIntensity v (setIntensity v s) = setIntensity v s ∧
    (setIntensity v s).tempoMs = NormieVoxels.jsRound (lerp
      ((NormieVoxels.jsRound (400 / ((AGE_CONFIG (lastTrait s.traits ("Age")
        ("Middle-Aged"))).getD ⟨1.0, 0⟩).tempoMult) : ℚ) * 1.08)
      ((NormieVoxels.jsRound (400 / ((AGE_CONFIG (lastTrait s.traits ("Age")
        ("Middle-Aged"))).getD ⟨1.0, 0⟩).tempoMult) : ℚ) * 0.92)
      (clamp01 v)) ∧
    (∀ t : EngineState, s.traits = t.traits →
      s.delayFeedbackGain.isSome = t.delayFeedbackGain.isSome →
      (setIntensity v s).tempoMs = (setIntensity v t).tempoMs ∧
      (setIntensity v s).delayFeedbackGain
        = (setIntensity v t).delayFeedbackGain) := by
  refine ⟨?_, ?_, le_max_left 0 _, max_le (by norm_num) (min_le_left 1 v), ?_,
    rfl, ?_, rfl, ?_⟩
  · intro h
    unfold setVolume
    rw [h]
  · intro g h
    unfold setVolume
    rw [h]
  · unfold setVolume
    cases h : s.masterGain with
    | none => simp [h]
    | some g => simp [h]
  · unfold setIntensity applyTraits
    cases hfb : s.delayFeedbackGain <;> cases hdt : s.delayTimeValue <;>
      cases hff : s.delayFilterFreq <;> simp [hfb, hdt, hff]
  · intro t htraits hfb
    unfold setIntensity applyTraits
    rw [htraits]
    constructor
    · rfl
    · cases hx : s.delayFeedbackGain <;> cases hy : t.delayFeedbackGain <;>
        simp_all

/-- Witness for C9: at the initial (unprimed) state, `setVolume(2)` is a
no-op; with a master gain present it stores the clamp `1`; `setIntensity(2)`
stores intensity 1, is idempotent, and re-derives a tempo of
`round(lerp(400·1.08, 400·0.92, 1)) = 368` for the default Middle-Aged
traits. -/
theorem setIntensity_setVolume_witness :
    setVolume 2 initialState = initialState ∧
    (setVolume 2 { initialState with masterGain := some (1/2) }).masterGain
      = some 1 ∧
    (setIntensity 2 initialState).intensity01 = 1 ∧
    setIntensity 2 (setIntensity 2 initialState) = setIntensity 2 initialState ∧
    (setIntensity 2 initialState).tempoMs = 368 := by
  obtain ⟨ha, _, _, _, _, hf, hg, hh, _⟩ :=
    setIntensity_setVolume_safe_idempotent 2 initialState
  obtain ⟨_, hb, _, _, _, _, _, _, _⟩ :=
    setIntensity_setVolume_safe_idempotent 2
      { initialState with masterGain := some (1/2) }
  refine ⟨ha rfl, ?_, ?_, hg, ?_⟩
  · rw [hb (1/2) rfl]
    norm_num [clamp01]
  · rw [hf]
    norm_num [clamp01]
  · rw [hh]
    norm_num [lastTrait, AGE_CONFIG, lerp, clamp01, NormieVoxels.jsRound,
      initialState]

end NormieAmbient3d

namespace NormieAudioScene

/-- `clamp(n, a, b)` from `NormieAudioScene.tsx`. -/
def clamp (n a b : ℝ) : ℝ := max a (min b n)

/-- `lerp(a, b, t)` from `NormieAudioScene.tsx`. -/
def lerp (a b t : ℝ) : ℝ := a + (b - a) * t

/-- `AudioLevelBridge`: `strength = clamp(baseStrength * lerp(0.65, 2.0,
intensity), 0, 2.5)`. -/
def strengthOf (baseStrength intensity : ℝ) : ℝ :=
  clamp (baseStrength * lerp 0.65 2.0 intensity) 0 2.5

/-- `AudioLevelBridge`: `smoothing = clamp(baseSmoothing + lerp(0.06, -0.1,
intensity), 0.75, 0.98)`. -/
def smoothingOf (baseSmoothing intensity : ℝ) : ℝ :=
  clamp (baseSmoothing + lerp 0.06 (-0.1) intensity) 0.75 0.98

/-- The gated target of an `AudioLevelBridge` tick: `target = clamp(raw *
strength, 0, 1)`, forced to exactly 0 below the gate `GATE = 0.015`. -/
noncomputable def gatedTarget (raw strength : ℝ) : ℝ :=
  if clamp (raw * strength) 0 1 < 0.015 then 0 else clamp (raw * strength) 0 1

/-- One `AudioLevelBridge` tick: `next = prev * smoothing + gated * (1 -
smoothing)`. -/
noncomputable def bridgeNext (prev raw strength smoothing : ℝ) : ℝ :=
  prev * smoothing + gatedTarget raw strength * (1 - smoothing)

/-- `curve = lerp(1.6, 0.65, clamp(intensity, 0, 1))` from
`NormieAudioScene.tsx`. -/
def curveOf (intensity : ℝ) : ℝ := lerp 1.6 0.65 (clamp intensity 0 1)

/-- `shaped = clamp(Math.pow(audioDrive, curve), 0, 1)`. -/
noncomputable def shapedOf (drive intensity : ℝ) : ℝ :=
  clamp (drive ^ curveOf intensity) 0 1

/-- `effectiveStarfield = clamp(lerp(rest, maxStarfield, shaped), 0, 1)` with
`rest = clamp(restStarfield, 0, 1)` and `maxStarfield = clamp(starfield, 0,
1)`. -/
noncomputable def effectiveStarfield
    (restStarfield starfield drive intensity : ℝ) : ℝ :=
  clamp (lerp (clamp restStarfield 0 1) (clamp starfield 0 1)
    (shapedOf drive intensity)) 0 1

lemma rclamp_mem (n a b : ℝ) (h : a ≤ b) : a ≤ clamp n a b ∧ clamp n a b ≤ b := by
  unfold clamp
  exact ⟨le_max_left a _, max_le h (min_le_left b n)⟩

lemma rclamp_eq_self {n a b : ℝ} (h1 : a ≤ n) (h2 : n ≤ b) : clamp n a b = n := by
  unfold clamp
  rw [min_eq_right h2, max_eq_right h1]

lemma curveOf_mem (intensity : ℝ) :
    0.65 ≤ curveOf intensity ∧ curveOf intensity ≤ 1.6 := by
  obtain ⟨hc0, hc1⟩ := rclamp_mem intensity 0 1 (by norm_num)
  unfold curveOf lerp
  constructor <;> nlinarith

lemma lerp_mem_between {a b t : ℝ} (ht0 : 0 ≤ t) (ht1 : t ≤ 1) :
    min a b ≤ lerp a b t ∧ lerp a b t ≤ max a b := by
  unfold lerp
  rcases le_total a b with h | h
  · rw [min_eq_left h, max_eq_right h]
    constructor <;> nlinarith
  · rw [min_eq_right h, max_eq_left h]
    constructor <;> nlinarith

/-- Claim C7.  With the rest value, the trait cap and the smoothed drive all
in `[0,1]`: the dispersal scalar handed to the voxels equals
`lerp(rest, cap, shaped)` with `shaped = drive^curve` and `curve =
lerp(1.6, 0.65, intensity)` (both clamps are no-ops on these ranges); the
scalar lies between the rest value and the cap and in `[0,1]`; it equals the
rest value exactly when the smoothed drive is 0; and a bridge tick whose
clamped boosted level falls below the gate `0.015` contributes exactly 0 to
the smoothing (the next smoothed value is `prev * smoothing`). -/
theorem effectiveStarfield_props
    (restS starS drive intensity prev raw strength smoothing : ℝ)
    (h1 : 0 ≤ restS) (h2 : restS ≤ 1) (h3 : 0 ≤ starS) (h4 : starS ≤ 1)
    (h5 : 0 ≤ drive) (h6 : drive ≤ 1) :
    effectiveStarfield restS starS drive intensity
      = lerp restS starS (shapedOf drive intensity) ∧
    shapedOf drive intensity = drive ^ curveOf intensity ∧
    min restS starS ≤ effectiveStarfield restS starS drive intensity ∧
    effectiveStarfield restS starS drive intensity ≤ max restS starS ∧
    0 ≤ effectiveStarfield restS starS drive intensity ∧
    effectiveStarfield restS starS drive intensity ≤ 1 ∧
    (drive = 0 → effectiveStarfield restS starS drive intensity = restS) ∧
    (clamp (raw * strength) 0 1 < 0.015 →
      bridgeNext prev raw strength smoothing = prev * smoothing) := by
  obtain ⟨hcv0, hcv1⟩ := curveOf_mem intensity
  have hsh : shapedOf drive intensity = drive ^ curveOf intensity := by
    unfold shapedOf
    exact rclamp_eq_self (Real.rpow_nonneg h5 _)
      (Real.rpow_le_one h5 h6 (by linarith))
  obtain ⟨hs0, hs1⟩ := rclamp_mem (drive ^ curveOf intensity) 0 1 (by norm_num)
  have hshape0 : 0 ≤ shapedOf drive intensity := by unfold shapedOf; exact hs0
  have hshape1 : shapedOf drive intensity ≤ 1 := by unfold shapedOf; exact hs1
  obtain ⟨hb0, hb1⟩ := lerp_mem_between (a := restS) (b := starS) hshape0 hshape1
  have heff : effectiveStarfield restS starS drive intensity
      = lerp restS starS (shapedOf drive intensity) := by
    unfold effectiveStarfield
    rw [rclamp_eq_self h1 h2, rclamp_eq_self h3 h4]
    exact rclamp_eq_self
      (le_trans (le_min h1 h3) hb0)
      (le_trans hb1 (max_le h2 h4))
  refine ⟨heff, hsh, ?_, ?_, ?_, ?_, ?_, ?_⟩
  · rw [heff]; exact hb0
  · rw [heff]; exact hb1
  · rw [heff]; exact le_trans (le_min h1 h3) hb0
  · rw [heff]; exact le_trans hb1 (max_le h2 h4)
  · intro hd
    rw [heff, hsh, hd, Real.zero_rpow (by linarith), lerp]
    ring
  · intro hg
    unfold bridgeNext gatedTarget
    rw [if_pos hg]
    ring

/-- Witness for C7: at rest value `1/2`, cap `1`, smoothed drive `0` and
intensity `1`, the dispersal scalar equals the rest value `1/2`; and a bridge
tick with raw level 0 (gated to zero) leaves `prev * smoothing`. -/
theorem effectiveStarfield_witness :
    effectiveStarfield (1/2) 1 0 1 = 1/2 ∧
    bridgeNext 3 0 1 (9/10) = 3 * (9/10) := by
  obtain ⟨_, _, _, _, _, _, h7, h8⟩ := effectiveStarfield_props
    (1/2) 1 0 1 3 0 1 (9/10) (by norm_num) (by norm_num) (by norm_num)
    (by norm_num) (by norm_num) (by norm_num)
  exact ⟨h7 rfl, h8 (by norm_num [clamp])⟩

end NormieAudioScene

namespace NormieVoxels

/-- The record the `cubes` memo pushes for pixel index `i` (reached only when
the character at `i` is `'1'`): grid coordinates `px = i % 40`,
`py = floor(i / 40)`, statue anchor with `halfW = halfH = 39/2`, the per-cell
jitter draw, the noise group and the dispersed anchor. -/
noncomputable def mkCube (i seed : ℕ) (pixelSize depth noiseScale : ℚ) :
    Cube ℝ where
  bx := (((i % 40 : ℕ) : ℝ) - 39/2) * (pixelSize : ℝ)
  by' := (39/2 - ((i / 40 : ℕ) : ℝ)) * (pixelSize : ℝ)
  bz := ((39/2 - ((i / 40 : ℕ) : ℝ)) / (39/2)) * (depth : ℝ) * 0.6
  tx := (dispersedAnchor i seed).1
  ty := (dispersedAnchor i seed).2.1
  tz := (dispersedAnchor i seed).2.2
  jitter := (((xorshift32 (u32 ((i + 1) * 10007) ^^^ u32 (seed * 9176)) : ℚ) : ℝ)
    - 0.5) * (pixelSize : ℝ) * 0.003
  group := (groupOf (i % 40) (i / 40) (seed : ℤ) noiseScale).toNat

/-- The `cubes` memo loop of `NormieVoxels.tsx`: iterate the pixel indices in
order and push a cube exactly for the indices whose character is `'1'`
(`if (pixels[i] !== "1") continue`). -/
noncomputable def cubes (pixels : List Char) (seed : ℕ)
    (pixelSize depth noiseScale : ℚ) : List (Cube ℝ) :=
  (List.range pixels.length).filterMap fun i =>
    if pixels.getD i ' ' == '1' then some (mkCube i seed pixelSize depth noiseScale)
    else none

lemma filterMap_ite_eq_map_filter {α β : Type} (l : List α) (p : α → Bool)
    (f : α → β) :
    (l.filterMap fun a => if p a then some (f a) else none)
      = (l.filter p).map f := by
  induction l with
  | nil => rfl
  | cons a t ih =>
    cases hpa : p a <;> simp [List.filterMap_cons, List.filter_cons, hpa, ih]

lemma countP_range_getD (l : List Char) (p : Char → Bool) :
    (List.range l.length).countP (fun i => p (l.getD i ' ')) = l.countP p := by
  induction l with
  | nil => rfl
  | cons a t ih =>
    have hcomp : ((fun i => p ((a :: t).getD i ' ')) ∘ Nat.succ)
        = fun i => p (t.getD i ' ') := by
      funext i
      simp [List.getD_cons_succ]
    rw [List.length_cons, List.range_succ_eq_map, List.countP_cons,
      List.countP_map, hcomp, ih, List.countP_cons]
    simp [List.getD_cons_zero]

lemma getD_replicate' (n i : ℕ) (a d : Char) :
    (List.replicate n a).getD i d = if i < n then a else d := by
  induction n generalizing i with
  | zero => simp
  | succ m ih =>
    cases i with
    | zero => simp [List.replicate_succ, List.getD_cons_zero]
    | succ j =>
      rw [List.replicate_succ, List.getD_cons_succ, ih]
      simp [Nat.succ_lt_succ_iff]

end NormieVoxels

namespace NormieAmbient3d

lemma foldl_count_if (l : List ℕ) (q : ℕ → Bool) (n : ℕ) :
    l.foldl (fun c y => c + (if q y then 1 else 0)) n = n + l.countP q := by
  induction l generalizing n with
  | nil => simp
  | cons a t ih =>
    rw [List.foldl_cons, ih, List.countP_cons]
    cases h : q a
    · simp [h]
    · simp [h]
      omega

lemma colDensity_eq_countP (pixels : List Char) (col : ℕ) :
    colDensity (some pixels) col
      = (((List.range 40).countP
          (fun y => pixels.getD (y * 40 + col) ' ' == '1') : ℕ) : ℚ) / 40 := by
  unfold colDensity
  dsimp only
  rw [foldl_count_if]
  norm_num

end NormieAmbient3d

namespace NormieTraitStudio

lemma jsTrim_replicate_of_no_ws (n : ℕ) (c : Char)
    (h : jsIsWhitespace c = false) :
    jsTrim (List.replicate n c) = List.replicate n c :=
  jsTrim_no_ws _ (fun x hx => by rw [List.eq_of_mem_replicate hx]; exact h)

lemma decodeLevels_two (n : ℕ) : ∀ i : ℕ,
    decodeLevels false (List.replicate n '2') i = .ok (List.replicate n 2) := by
  induction n with
  | zero => intro i; rfl
  | succ m ih =>
    intro i
    rw [List.replicate_succ, List.replicate_succ]
    simp [decodeLevels, show hexDigit? '2' = some 2 from by decide, ih]

lemma parse_two_grid :
    parseNormiesPixelString (List.replicate 1600 '2')
      = .ok ⟨40, 40, List.replicate 1600 2, .hex⟩ := by
  have hnotbin : (List.replicate 1600 '2').all (fun c => c == '0' || c == '1')
      = false := by
    rw [List.all_eq_false]
    exact ⟨'2', List.mem_replicate.2 ⟨by norm_num, rfl⟩, by decide⟩
  rw [parse_eq_of_trim _ _ (jsTrim_replicate_of_no_ws 1600 '2' (by decide))
    (List.length_replicate _ _), hnotbin, decodeLevels_two]
  rfl

end NormieTraitStudio

/-- Claim C10.  A pixel index produces a voxel cell exactly when its
character is `'1'`: the cubes list is the map of the cell constructor over
precisely the indices holding `'1'`, so its length is the number of `'1'`
characters; the audio engine's column density counts exactly the `'1'`
characters of the column divided by 40; consequently the all-`'2'` hex grid
produces no cube and zero density in every column, even though the decoder
classifies `'2'` as the nonzero level 2. -/
theorem cells_iff_char_one (pixels : List Char) (seed : ℕ)
    (pixelSize depth noiseScale : ℚ) (col : ℕ) :
    NormieVoxels.cubes pixels seed pixelSize depth noiseScale
      = ((List.range pixels.length).filter
          (fun i => pixels.getD i ' ' == '1')).map
          (fun i => NormieVoxels.mkCube i seed pixelSize depth noiseScale) ∧
    (NormieVoxels.cubes pixels seed pixelSize depth noiseScale).length
      = (pixels.filter (fun c => c == '1')).length ∧
    NormieAmbient3d.colDensity (some pixels) col
      = (((List.range 40).countP
          (fun y => pixels.getD (y * 40 + col) ' ' == '1') : ℕ) : ℚ) / 40 ∧
    NormieVoxels.cubes (List.replicate 1600 '2') seed pixelSize depth noiseScale
      = [] ∧
    NormieAmbient3d.colDensity (some (List.replicate 1600 '2')) col = 0 ∧
    NormieTraitStudio.parseNormiesPixelString (List.replicate 1600 '2')
      = .ok ⟨40, 40, List.replicate 1600 2, .hex⟩ ∧
    (2 : ℕ) ≠ 0 := by
  have hchar : ∀ i : ℕ,
      ((List.replicate 1600 '2').getD i ' ' == '1') = false := by
    intro i
    rw [NormieVoxels.getD_replicate']
    split <;> decide
  have hc : NormieVoxels.cubes pixels seed pixelSize depth noiseScale
      = ((List.range pixels.length).filter
          (fun i => pixels.getD i ' ' == '1')).map
          (fun i => NormieVoxels.mkCube i seed pixelSize depth noiseScale) :=
    NormieVoxels.filterMap_ite_eq_map_filter _ _ _
  have hc2 : NormieVoxels.cubes (List.replicate 1600 '2') seed pixelSize depth
      noiseScale
      = ((List.range (List.replicate 1600 '2').length).filter
          (fun i => (List.replicate 1600 '2').getD i ' ' == '1')).map
          (fun i => NormieVoxels.mkCube i seed pixelSize depth noiseScale) :=
    NormieVoxels.filterMap_ite_eq_map_filter _ _ _
  refine ⟨hc, ?_, NormieAmbient3d.colDensity_eq_countP pixels col, ?_, ?_,
    NormieTraitStudio.parse_two_grid, by norm_num⟩
  · rw [hc, List.length_map, ← List.countP_eq_length_filter,
      ← List.countP_eq_length_filter]
    exact NormieVoxels.countP_range_getD pixels (fun c => c == '1')
  · rw [hc2]
    have hfil : (List.range (List.replicate 1600 '2').length).filter
        (fun i => (List.replicate 1600 '2').getD i ' ' == '1') = [] := by
      rw [List.filter_eq_nil_iff]
      intro i _
      rw [hchar i]
      exact Bool.false_ne_true
    rw [hfil]
    rfl
  · rw [NormieAmbient3d.colDensity_eq_countP]
    have hcnt : (List.range 40).countP
        (fun y => (List.replicate 1600 '2').getD (y * 40 + col) ' ' == '1')
        = 0 := by
      rw [List.countP_eq_zero]
      intro y _
      rw [hchar (y * 40 + col)]
      exact Bool.false_ne_true
    rw [hcnt]
    norm_num
